import Mathlib

/-!
Shallow embedding of two subsystems of the aioxmpp repository:

* the entity-capabilities cache and negotiation engine of
  `src/aioxmpp/entitycaps/service.py` (class `Cache`, class
  `EntityCapsService`, function `writeback`), and
* the tag-keyed event dispatch core of `src/asyncio_xmpp/callbacks.py`
  (class `TagListener`, class `TagDispatcher`).

Modelling conventions:

* Python dictionaries become association lists with dictionary update
  semantics (`ainsert` replaces in place, `aremove` deletes).
* Opaque domain values (capability keys, feature-info entries, future
  objects) become natural numbers: only equality of these values matters
  to the code under study; future identity (the `is` check of
  `Cache._erase_future`) becomes equality of the numeric id.
* Python exceptions become the `PyExc` type; a fallible operation returns
  `Except PyExc` or the `PyResult` type.
* A coroutine that awaits futures is a function of the trace of what each
  successive read of the pending-future mapping produced and how the
  future it awaited settled (`FutOutcome`); this replaces the event loop.
* File-system stores become association lists from keys to parsed
  entries; a key absent from the list stands for a file whose `open`
  raises `OSError` (missing or unopenable), which the source swallows.
-/

/-- Python exception kinds distinguished by the modelled code. -/
inductive PyExc
  | valueError
  | keyError
  | indexError
  | typeError
  | oserror
  | other (n : Nat)
deriving DecidableEq

/-- Capability keys: opaque, compared by value. -/
abbrev Key := Nat

/-- Feature-info entries (`disco.xso.InfoQuery` values): opaque. -/
abbrev Entry := Nat

/-- Identity of an `asyncio.Future` object. -/
abbrev FutId := Nat

/-- Dictionary read: first binding of the key, if any. -/
def alookup {α β : Type} [DecidableEq α] : List (α × β) → α → Option β
  | [], _ => none
  | (k, v) :: rest, key => if k = key then some v else alookup rest key

/-- Dictionary assignment: replace the binding in place, else append. -/
def ainsert {α β : Type} [DecidableEq α] : List (α × β) → α → β → List (α × β)
  | [], key, v => [(key, v)]
  | (k, w) :: rest, key, v =>
      if k = key then (key, v) :: rest else (k, w) :: ainsert rest key v

/-- Dictionary deletion: drop the binding of the key. -/
def aremove {α β : Type} [DecidableEq α] : List (α × β) → α → List (α × β)
  | [], _ => []
  | (k, w) :: rest, key =>
      if k = key then rest else (k, w) :: aremove rest key

/-- State of `Cache` (`src/aioxmpp/entitycaps/service.py`): the pending
future registry `_lookup_cache`, the `_memory_overlay`, and the two
optional on-disk stores.  A store path set to `none` models
`_system_db_path is None` (resp. user); a configured store is modelled by
the mapping from keys to the entries its readable files parse to. -/
structure Cache where
  lookup_cache : List (Key × FutId)
  memory_overlay : List (Key × Entry)
  system_db_path : Option (List (Key × Entry))
  user_db_path : Option (List (Key × Entry))
deriving DecidableEq

/-- The store tiers that involve opening a file. -/
inductive Tier
  | system
  | user
deriving DecidableEq

/-- One disk tier of `lookup_in_database`: `none` when the path is not
configured (no open attempted); otherwise the file for the key is opened,
which yields its entry or, when absent, raises `OSError` (swallowed by the
source into a fall-through).  The second component records which tier
attempted an open. -/
def tryStore (db : Option (List (Key × Entry))) (t : Tier) (key : Key) :
    Option Entry × List Tier :=
  match db with
  | none => (none, [])
  | some files => (alookup files key, [t])

/-- `Cache.lookup_in_database` (service.py lines 95-130): memory overlay
first, then system store, then user store; `none` as first component
models the final `raise KeyError(key)`.  The trace component lists the
disk tiers at which an open was attempted. -/
def Cache.lookup_in_database (c : Cache) (key : Key) :
    Option Entry × List Tier :=
  match alookup c.memory_overlay key with
  | some result => (some result, [])
  | none =>
    match tryStore c.system_db_path Tier.system key with
    | (some e, tr) => (some e, tr)
    | (none, tr1) =>
      match tryStore c.user_db_path Tier.user key with
      | (some e, tr2) => (some e, tr1 ++ tr2)
      | (none, tr2) => (none, tr1 ++ tr2)

/-- How an awaited future settled. -/
inductive FutOutcome
  | ok (v : Entry)
  | err (e : PyExc)
deriving DecidableEq

/-- Result of running a coroutine over a finite modelled trace. -/
inductive PyResult (α : Type)
  | ok (v : α)
  | raised (e : PyExc)
  | pending
deriving DecidableEq

/-- The `while True` loop of `Cache.lookup` (service.py lines 152-159).
Each element of the trace models one iteration: the read
`self._lookup_cache[key]` found no future (`none`, so `KeyError`
propagates) or found one that settled with the given outcome.  A
`ValueError` settlement is swallowed and the loop re-reads the mapping;
any other settlement is returned or re-raised.  An exhausted trace means
the coroutine is still suspended. -/
def lookup_wait : List (Option FutOutcome) → PyResult Entry
  | [] => PyResult.pending
  | none :: _ => PyResult.raised PyExc.keyError
  | some (FutOutcome.ok v) :: _ => PyResult.ok v
  | some (FutOutcome.err e) :: rest =>
      if e = PyExc.valueError then lookup_wait rest else PyResult.raised e

/-- `Cache.lookup` (service.py lines 132-159): try the database; on
`KeyError` fall into the pending-future wait loop. -/
def Cache.lookup (c : Cache) (key : Key) (env : List (Option FutOutcome)) :
    PyResult Entry :=
  match (c.lookup_in_database key).1 with
  | some result => PyResult.ok result
  | none => lookup_wait env

/-- `Cache._erase_future` (service.py lines 80-87), the done callback of
every future made by `create_query_future`: remove the registry binding
only when the registered future is identically the settling one. -/
def Cache.erase_future (c : Cache) (key : Key) (fut : FutId) : Cache :=
  match alookup c.lookup_cache key with
  | none => c
  | some existing =>
      if existing = fut then
        { c with lookup_cache := aremove c.lookup_cache key }
      else c

/-- `Cache.create_query_future` (service.py lines 161-176): register a
fresh future for the key (dictionary assignment, so any previous binding
is replaced). -/
def Cache.create_query_future (c : Cache) (key : Key) (fut : FutId) : Cache :=
  { c with lookup_cache := ainsert c.lookup_cache key fut }

/-- `Cache.add_cache_entry` (service.py lines 178-193): store a copy of
the entry in the memory overlay synchronously; when a user db path is
configured, schedule the executor job
`run_in_executor(None, writeback, self._user_db_path / key.path,
entry.captured_events)` and return its positional argument list
(modelled as the pair key, entry standing for the composed path and the
captured events); `none` means no job was scheduled. -/
def Cache.add_cache_entry (c : Cache) (key : Key) (entry : Entry) :
    Cache × Option (List Nat) :=
  let c2 := { c with memory_overlay := ainsert c.memory_overlay key entry }
  match c.user_db_path with
  | none => (c2, none)
  | some _ => (c2, some [key, entry])

/-- A file-system effect performed by the `writeback` body
(service.py lines 467-481). -/
inductive FsOp
  | createTemp (dir : Nat)
  | writeEvents
  | unlinkTemp
  | replace (dest : Nat)
deriving DecidableEq

/-- Outcome of one executor job: the file-system effects it performed and
the exception it raised, if any (`none` means it returned normally). -/
structure WritebackRun where
  fsops : List FsOp
  raised : Option PyExc
deriving DecidableEq

/-- Destination path computed by `writeback`:
`base_path / "{hash}_{quoted node}.xml"`, modelled by pairing the inputs. -/
def writeback_dest (base_path hash_ node : Nat) : Nat :=
  Nat.pair base_path (Nat.pair hash_ node)

/-- Body of `writeback(base_path, hash_, node, captured_events)`
(service.py lines 467-481): make a named temporary file in `base_path`,
serialise the captured events into it, then `os.replace` it onto the
destination; if serialisation raises (modelled by the flag), unlink the
temporary file and re-raise. -/
def writeback (base_path hash_ node captured_events : Nat)
    (serialiseFails : Bool) : WritebackRun :=
  if serialiseFails then
    { fsops := [FsOp.createTemp base_path, FsOp.unlinkTemp],
      raised := some (PyExc.other captured_events) }
  else
    { fsops := [FsOp.createTemp base_path, FsOp.writeEvents,
                FsOp.replace (writeback_dest base_path hash_ node)],
      raised := none }

/-- Running the executor job scheduled by `add_cache_entry`: apply
`writeback` to the scheduled positional arguments.  `writeback` declares
four required positional parameters, so Python raises `TypeError` before
the body runs unless exactly four arguments are supplied. -/
def run_scheduled_writeback (args : List Nat) (serialiseFails : Bool) :
    WritebackRun :=
  match args with
  | [a, b, c, d] => writeback a b c d serialiseFails
  | _ => { fsops := [], raised := some PyExc.typeError }

/-- A `fut.set_result` / `fut.set_exception` call performed on the
pending future passed to `query_and_cache`. -/
inductive FutSettle
  | setResult (v : Entry)
  | setException (e : PyExc)
deriving DecidableEq

/-- How the awaited `disco_client.query_info` call ended. -/
inductive QueryOutcome
  | ok (data : Entry)
  | err (e : PyExc)
deriving DecidableEq

/-- Effects and result of one `query_and_cache` run. -/
structure QCResult where
  cache : Cache
  settles : List FutSettle
  result : PyResult Entry
deriving DecidableEq

/-- `EntityCapsService.query_and_cache` (service.py lines 355-371).
`verify` models the pure `key.verify(data)` recomputation; `q` is the
outcome of the awaited `query_info` call.  When the query raises, the
exception propagates at the `yield from` and nothing below runs.  When it
returns data: on successful verification the entry is cached and
`fut.set_result(data)` runs; otherwise `ValueError("hash mismatch")` is
raised, caught, and given to `fut.set_exception`.  Control then falls
through to `return data` in both cases. -/
def query_and_cache (verify : Key → Entry → Bool) (c : Cache) (key : Key)
    (q : QueryOutcome) : QCResult :=
  match q with
  | QueryOutcome.err e =>
      { cache := c, settles := [], result := PyResult.raised e }
  | QueryOutcome.ok data =>
      if verify key data then
        { cache := (c.add_cache_entry key data).1,
          settles := [FutSettle.setResult data],
          result := PyResult.ok data }
      else
        { cache := c,
          settles := [FutSettle.setException PyExc.valueError],
          result := PyResult.ok data }

/-- The `for key in keys` loop of `lookup_info` (service.py lines
375-382): each key is looked up with its own await trace; `KeyError`
is swallowed and the loop continues; any other outcome of `Cache.lookup`
ends the coroutine.  `none` means the loop fell through. -/
def lookup_info_loop (c : Cache) :
    List (Key × List (Option FutOutcome)) → Option (PyResult Entry)
  | [] => none
  | (k, env) :: rest =>
    match c.lookup k env with
    | PyResult.ok v => some (PyResult.ok v)
    | PyResult.raised PyExc.keyError => lookup_info_loop c rest
    | PyResult.raised e => some (PyResult.raised e)
    | PyResult.pending => some PyResult.pending

/-- Effects and result of one `lookup_info` run.  `queried` records
whether the live peer query was issued. -/
structure LIResult where
  result : PyResult Entry
  cache : Cache
  settles : List FutSettle
  queried : Bool
deriving DecidableEq

/-- `EntityCapsService.lookup_info` (service.py lines 373-392): try every
candidate key against the cache; when the loop falls through, take
`keys[0]` (an `IndexError` on the empty list), register a fresh pending
future for it and run `query_and_cache` against the live peer. -/
def lookup_info (verify : Key → Entry → Bool) (c : Cache) (keys : List Key)
    (envs : List (List (Option FutOutcome))) (newFut : FutId)
    (q : QueryOutcome) : LIResult :=
  match lookup_info_loop c (keys.zip envs) with
  | some r => { result := r, cache := c, settles := [], queried := false }
  | none =>
    match keys with
    | [] =>
        { result := PyResult.raised PyExc.indexError, cache := c,
          settles := [], queried := false }
    | first_key :: _ =>
        let c1 := c.create_query_future first_key newFut
        let qc := query_and_cache verify c1 first_key q
        { result := qc.result, cache := qc.cache, settles := qc.settles,
          queried := true }

/-- `EntityCapsService.handle_inbound_presence` (service.py lines
413-433): collect the XEP-390 keys then the XEP-115 keys, honouring the
per-scheme flags; spawn the `lookup_info` task only when the collected
list is non-empty.  The result is the key list the task is spawned with,
`none` when no task is spawned. -/
def handle_inbound_presence (x390 x115 : Bool)
    (keys390 keys115 : List Key) : Option (List Key) :=
  let keys := (if x390 then keys390 else []) ++ (if x115 then keys115 else [])
  if keys.isEmpty then none else some keys

/-- Extensional equality of Python sets represented as lists of their
elements. -/
def setEqb (a b : List Nat) : Bool :=
  a.all (fun x => b.contains x) && b.all (fun x => a.contains x)

/-- The `__current_keys` dictionary of `EntityCapsService`: at most one
key set per scheme (absent when the scheme was disabled at the last
recomputation).  A set is carried as the duplicate-free list of its
elements. -/
structure KeyState where
  k115 : Option (List Nat)
  k390 : Option (List Nat)
deriving DecidableEq

/-- Equality of two `__current_keys` dictionaries: same schemes present,
and per scheme the key sets are extensionally equal (Python dict and set
equality). -/
def KeyState.eqb (a b : KeyState) : Bool :=
  (match a.k115, b.k115 with
   | none, none => true
   | some s, some t => setEqb s t
   | _, _ => false) &&
  (match a.k390, b.k390 with
   | none, none => true
   | some s, some t => setEqb s t
   | _, _ => false)

/-- An observable action of `update_hash`. -/
inductive CapsEvent
  | unmount (node : Nat)
  | mount (node : Nat)
  | verChanged
deriving DecidableEq

/-- The groups of a `__current_keys` dictionary in insertion order
(115 before 390, matching `update_hash`). -/
def KeyState.groups (ks : KeyState) : List (List Nat) :=
  (match ks.k115 with | some s => [s] | none => []) ++
  (match ks.k390 with | some s => [s] | none => [])

/-- All per-key events for the groups of a key state. -/
def keyEvents (f : Nat → CapsEvent) (ks : KeyState) : List CapsEvent :=
  (ks.groups.map (fun g => g.map f)).flatten

/-- `EntityCapsService.update_hash` (service.py lines 435-464).  The
computed key lists per scheme are inputs (`calc115`, `calc390` model
`self.__115.calculate_keys(info)` etc., gated by the support flags;
`set(...)` is modelled by `List.dedup`).  When the new dictionary equals
the current one, nothing happens.  Otherwise every key of every current
group is unmounted, the dictionary is replaced, every key of every new
group is mounted, and `on_ver_changed` fires once. -/
def update_hash (x115 x390 : Bool) (calc115 calc390 : List Nat)
    (cur : KeyState) : KeyState × List CapsEvent :=
  let new_keys : KeyState :=
    { k115 := if x115 then some calc115.dedup else none,
      k390 := if x390 then some calc390.dedup else none }
  if cur.eqb new_keys then (cur, [])
  else
    (new_keys,
      keyEvents CapsEvent.unmount cur ++
      keyEvents CapsEvent.mount new_keys ++
      [CapsEvent.verChanged])

/-- A listener as `TagDispatcher` sees it (duck-typed `data` method):
`lid` is its identity, `dataRet` the Python truthiness of the value its
`data` method returns when invoked.  (The `TagListener` class of
`src/asyncio_xmpp/callbacks.py` always returns `None`, i.e.
`dataRet = false`; oneshot-style listeners would return truthy.) -/
structure TagListener where
  lid : Nat
  dataRet : Bool
deriving DecidableEq

/-- State of `TagDispatcher` (`src/asyncio_xmpp/callbacks.py`). -/
structure TagDispatcher where
  listeners : List (Nat × TagListener)
deriving DecidableEq

/-- `TagDispatcher.add_listener` (callbacks.py lines 65-71): raise
`ValueError` when the tag is taken, else register.  An error leaves the
dispatcher unchanged (the source raises before any assignment). -/
def TagDispatcher.add_listener (d : TagDispatcher) (tag : Nat)
    (l : TagListener) : PyResult TagDispatcher :=
  match alookup d.listeners tag with
  | none => PyResult.ok { listeners := ainsert d.listeners tag l }
  | some _ => PyResult.raised PyExc.valueError

/-- A `data` delivery performed by `unicast`. -/
structure Delivery where
  toListener : Nat
  ret : Bool
deriving DecidableEq

/-- `TagDispatcher.unicast` (callbacks.py lines 73-75): look the tag up
(`KeyError` when absent) and call the data method of the listener.
The source ignores the value the data method returns and never removes
the listener, so the dispatcher state comes back unchanged. -/
def TagDispatcher.unicast (d : TagDispatcher) (tag : Nat) :
    PyResult (TagDispatcher × Delivery) :=
  match alookup d.listeners tag with
  | none => PyResult.raised PyExc.keyError
  | some cb =>
      PyResult.ok (d, { toListener := cb.lid, ret := cb.dataRet })

/-- A cache with no stores configured and nothing pending. -/
def cacheEmpty : Cache :=
  { lookup_cache := [], memory_overlay := [],
    system_db_path := none, user_db_path := none }

/-- A cache whose registry holds the pending future 5 for key 0. -/
def cachePending : Cache := { cacheEmpty with lookup_cache := [(0, 5)] }

/-- A cache exercising all three tiers: key 1 in the memory overlay,
key 2 in both disk stores (system wins), key 3 only in the user store,
key 4 nowhere. -/
def cacheTiers : Cache :=
  { lookup_cache := [], memory_overlay := [(1, 10)],
    system_db_path := some [(2, 20)],
    user_db_path := some [(2, 99), (3, 30)] }

/-- A cache with a user store configured (initially empty). -/
def cacheUser : Cache := { cacheEmpty with user_db_path := some [] }

/-- A listener whose data method returns a truthy value (oneshot-style
signalling). -/
def listener7 : TagListener := { lid := 7, dataRet := true }

/-- A listener whose data method returns a falsy value. -/
def listener8 : TagListener := { lid := 8, dataRet := false }

/-- A dispatcher with `listener7` registered at tag 0. -/
def dispatcher1 : TagDispatcher := { listeners := [(0, listener7)] }

/-- Claim C9: for every tag that already has a registered listener,
`add_listener` with any second listener raises `ValueError` and leaves
the registry unchanged (the call raises before mutating, so the caller
keeps the old dispatcher), and `unicast` on that tag still delivers to
the first listener. -/
theorem add_listener_duplicate_spec (d : TagDispatcher) (tag : Nat)
    (l1 l2 : TagListener) (h : alookup d.listeners tag = some l1) :
    d.add_listener tag l2 = PyResult.raised PyExc.valueError
    ∧ d.unicast tag
        = PyResult.ok (d, { toListener := l1.lid, ret := l1.dataRet }) := by
  constructor
  · simp [TagDispatcher.add_listener, h]
  · simp [TagDispatcher.unicast, h]

/-- Witness for C9 at a concrete dispatcher: `listener7` is registered at
tag 0, adding `listener8` fails with `ValueError`, and `unicast` still
delivers to `listener7`. -/
theorem add_listener_duplicate_spec_wit :
    dispatcher1.add_listener 0 listener8 = PyResult.raised PyExc.valueError
    ∧ dispatcher1.unicast 0
        = PyResult.ok (dispatcher1, { toListener := listener7.lid,
                                      ret := listener7.dataRet }) :=
  add_listener_duplicate_spec dispatcher1 0 listener7 listener8 (by decide)

/-- Claim C3 (divergent code): in `src/asyncio_xmpp/callbacks.py`,
`unicast` delivers to the registered listener but ignores the value the
data method returns and never removes the listener.  Evaluated at the
failing input of the claim (a listener signalling oneshot consumption by
a truthy return): the first `unicast` delivers and leaves the registry
unchanged, so a second `unicast` on the same tag delivers again instead
of raising the unknown-tag `KeyError`; `unicast` on an unregistered tag
does raise `KeyError`. -/
theorem unicast_no_oneshot_removal_eval :
    (TagDispatcher.mk []).add_listener 0 listener7
      = PyResult.ok dispatcher1
    ∧ dispatcher1.unicast 0
        = PyResult.ok (dispatcher1, { toListener := 7, ret := true })
    ∧ dispatcher1.unicast 0 ≠ PyResult.raised PyExc.keyError
    ∧ (TagDispatcher.mk []).unicast 0 = PyResult.raised PyExc.keyError := by
  decide

/-- Claim C4 (divergent code): `add_cache_entry` commits the entry to the
memory overlay synchronously and schedules an executor job exactly when a
user store is configured, but the job applies `writeback` to only two
positional arguments while `writeback` declares four required
parameters, so every durable write dies with `TypeError` before touching
the file system: no temporary file and no rename ever happen.  Evaluated
at the failing input key 5, entry 77 on a cache with a user store. -/
theorem add_cache_entry_writeback_arity_eval :
    (cacheUser.add_cache_entry 5 77).2 = some [5, 77]
    ∧ alookup (cacheUser.add_cache_entry 5 77).1.memory_overlay 5 = some 77
    ∧ (cacheEmpty.add_cache_entry 5 77).2 = none
    ∧ ((cacheUser.add_cache_entry 5 77).2.map List.length) = some 2
    ∧ run_scheduled_writeback [5, 77] false
        = { fsops := [], raised := some PyExc.typeError }
    ∧ run_scheduled_writeback [5, 77] true
        = { fsops := [], raised := some PyExc.typeError } := by
  decide

/-- Claim C5 counterexample: at the concrete input where the underlying
feature query fails with a transport error, `query_and_cache` performs
zero `set_result`/`set_exception` calls on the pending future, refuting
the claimed exactly-once settlement on every completion path. -/
theorem query_and_cache_unsettled_cex :
    (query_and_cache (fun _ _ => true) cacheEmpty 0
        (QueryOutcome.err (PyExc.other 3))).settles.length = 0
    ∧ (query_and_cache (fun _ _ => true) cacheEmpty 0
        (QueryOutcome.err (PyExc.other 3))).result
        = PyResult.raised (PyExc.other 3) := by
  decide

/-- Claim C5 as amended: on every completion path where the feature query
returns data, the pending future is settled exactly once (`set_result`
on successful verification, `set_exception` otherwise); on the path where
the query itself raises, the future is not settled at all and the error
propagates out of `query_and_cache`. -/
theorem query_and_cache_settle_counts (verify : Key → Entry → Bool)
    (c : Cache) (key : Key) (d : Entry) (e : PyExc) :
    (query_and_cache verify c key (QueryOutcome.ok d)).settles.length = 1
    ∧ (query_and_cache verify c key (QueryOutcome.err e)).settles = []
    ∧ (query_and_cache verify c key (QueryOutcome.err e)).result
        = PyResult.raised e := by
  refine ⟨?_, by simp [query_and_cache], by simp [query_and_cache]⟩
  by_cases hv : verify key d
  · simp [query_and_cache, hv]
  · simp [query_and_cache, hv]

/-- Helper: guarding on emptiness never produces `some []`. -/
theorem guard_nonempty_ne_some_nil (keys : List Key) :
    (if keys.isEmpty then none else some keys) ≠ some [] := by
  by_cases h : keys.isEmpty
  · simp [h]
  · simp only [h, if_neg, Bool.false_eq_true, not_false_eq_true, if_false]
    intro hc
    rw [Option.some_inj] at hc
    subst hc
    simp at h

/-- Claim C10: `lookup_info` on an empty candidate key list raises
`IndexError` from the `keys[0]` access (not the not-found `KeyError`)
and issues no live query, and `handle_inbound_presence` only ever spawns
the lookup task with a non-empty key list. -/
theorem lookup_info_empty_keys_spec (verify : Key → Entry → Bool)
    (c : Cache) (newFut : FutId) (q : QueryOutcome) :
    lookup_info verify c [] [] newFut q
      = { result := PyResult.raised PyExc.indexError, cache := c,
          settles := [], queried := false }
    ∧ (PyResult.raised PyExc.indexError : PyResult Entry)
        ≠ PyResult.raised PyExc.keyError
    ∧ ∀ x390 x115 keys390 keys115,
        handle_inbound_presence x390 x115 keys390 keys115 ≠ some [] := by
  refine ⟨by simp [lookup_info, lookup_info_loop], by simp, ?_⟩
  intro x390 x115 keys390 keys115
  exact guard_nonempty_ne_some_nil _

/-- Claim C1 counterexample: concrete resolution in which the single
candidate key misses every tier and no pending future exists, the live
query is issued and verification fails.  `lookup_info` settles the
pending future with the verification `ValueError`, does not touch the
memory overlay, and yet completes successfully with the unverified
feature description instead of failing. -/
theorem lookup_info_mismatch_cex :
    (lookup_info (fun _ _ => false) cacheEmpty [0] [[none]] 1
        (QueryOutcome.ok 9)).result = PyResult.ok 9
    ∧ (lookup_info (fun _ _ => false) cacheEmpty [0] [[none]] 1
        (QueryOutcome.ok 9)).settles
        = [FutSettle.setException PyExc.valueError]
    ∧ (lookup_info (fun _ _ => false) cacheEmpty [0] [[none]] 1
        (QueryOutcome.ok 9)).queried = true
    ∧ (lookup_info (fun _ _ => false) cacheEmpty [0] [[none]] 1
        (QueryOutcome.ok 9)).cache.memory_overlay = [] := by
  decide

/-- Claim C1 as amended: when every candidate key misses the cache, the
live query is issued for the first key and verification of the returned
data fails, `lookup_info` fails the registered pending future with the
verification `ValueError` and does not add the entry to the cache, but
the overall call does not fail: `query_and_cache` falls through to
`return data`, so `lookup_info` returns the unverified feature
description. -/
theorem lookup_info_mismatch_behavior (verify : Key → Entry → Bool)
    (c : Cache) (k0 : Key) (ks : List Key)
    (envs : List (List (Option FutOutcome))) (newFut : FutId) (data : Entry)
    (hmiss : lookup_info_loop c ((k0 :: ks).zip envs) = none)
    (hver : verify k0 data = false) :
    (lookup_info verify c (k0 :: ks) envs newFut
        (QueryOutcome.ok data)).queried = true
    ∧ (lookup_info verify c (k0 :: ks) envs newFut
        (QueryOutcome.ok data)).settles
        = [FutSettle.setException PyExc.valueError]
    ∧ (lookup_info verify c (k0 :: ks) envs newFut
        (QueryOutcome.ok data)).cache.memory_overlay = c.memory_overlay
    ∧ (lookup_info verify c (k0 :: ks) envs newFut
        (QueryOutcome.ok data)).result = PyResult.ok data := by
  simp [lookup_info, hmiss, query_and_cache, hver, Cache.create_query_future]

/-- Witness for C1 as amended, at the concrete divergent input. -/
theorem lookup_info_mismatch_behavior_wit :
    (lookup_info (fun _ _ => false) cacheEmpty ([0] : List Key) [[none]] 1
        (QueryOutcome.ok 9)).queried = true
    ∧ (lookup_info (fun _ _ => false) cacheEmpty ([0] : List Key) [[none]] 1
        (QueryOutcome.ok 9)).settles
        = [FutSettle.setException PyExc.valueError]
    ∧ (lookup_info (fun _ _ => false) cacheEmpty ([0] : List Key) [[none]] 1
        (QueryOutcome.ok 9)).cache.memory_overlay = cacheEmpty.memory_overlay
    ∧ (lookup_info (fun _ _ => false) cacheEmpty ([0] : List Key) [[none]] 1
        (QueryOutcome.ok 9)).result = PyResult.ok 9 :=
  lookup_info_mismatch_behavior (fun _ _ => false) cacheEmpty 0 [] [[none]] 1 9
    (by decide) (by decide)

/-- Helper: the wait loop of `Cache.lookup` swallows every `ValueError`
settlement, so it can never itself end with a raised `ValueError`. -/
theorem lookup_wait_ne_valueError (env : List (Option FutOutcome)) :
    lookup_wait env ≠ PyResult.raised PyExc.valueError := by
  induction env with
  | nil => simp [lookup_wait]
  | cons hd rest ih =>
    match hd with
    | none => simp [lookup_wait]
    | some (FutOutcome.ok v) => simp [lookup_wait]
    | some (FutOutcome.err e) =>
      by_cases he : e = PyExc.valueError
      · simpa [lookup_wait, he] using ih
      · simp [lookup_wait, he]

/-- Claim C6: for a key no store tier resolves, `Cache.lookup` awaits the
registered pending future; a `ValueError` settlement makes it re-read the
pending mapping and await whatever fresh future is registered, a fresh
read finding nothing raises the not-found `KeyError`, a fresh future that
succeeds supplies the result, and no run of `Cache.lookup` ever raises
the verification `ValueError` itself. -/
theorem cache_lookup_retry_spec (c : Cache) (key : Key)
    (rest : List (Option FutOutcome))
    (hmiss : (c.lookup_in_database key).1 = none) :
    c.lookup key (some (FutOutcome.err PyExc.valueError) :: rest)
      = lookup_wait rest
    ∧ c.lookup key (some (FutOutcome.err PyExc.valueError) :: none :: rest)
        = PyResult.raised PyExc.keyError
    ∧ (∀ v rest2, c.lookup key (some (FutOutcome.err PyExc.valueError)
          :: some (FutOutcome.ok v) :: rest2) = PyResult.ok v)
    ∧ ∀ env, c.lookup key env ≠ PyResult.raised PyExc.valueError := by
  refine ⟨by simp [Cache.lookup, hmiss, lookup_wait],
          by simp [Cache.lookup, hmiss, lookup_wait],
          fun v rest2 => by simp [Cache.lookup, hmiss, lookup_wait],
          fun env => ?_⟩
  unfold Cache.lookup
  match hdb : (c.lookup_in_database key).1 with
  | some r => simp
  | none => simpa using lookup_wait_ne_valueError env

/-- Witness for C6 at a concrete cache with empty stores (so the database
misses) and a one-step pending-future trace. -/
theorem cache_lookup_retry_spec_wit :
    cacheEmpty.lookup 0 (some (FutOutcome.err PyExc.valueError) :: [])
      = lookup_wait []
    ∧ cacheEmpty.lookup 0
        (some (FutOutcome.err PyExc.valueError) :: none :: [])
        = PyResult.raised PyExc.keyError
    ∧ (∀ v rest2, cacheEmpty.lookup 0 (some (FutOutcome.err PyExc.valueError)
          :: some (FutOutcome.ok v) :: rest2) = PyResult.ok v)
    ∧ ∀ env, cacheEmpty.lookup 0 env ≠ PyResult.raised PyExc.valueError :=
  cache_lookup_retry_spec cacheEmpty 0 [] (by decide)

/-- Helper: a key is absent from a dictionary exactly when `alookup`
misses. -/
theorem alookup_eq_none_iff {α β : Type} [DecidableEq α]
    (l : List (α × β)) (k : α) :
    alookup l k = none ↔ k ∉ l.map Prod.fst := by
  induction l with
  | nil => simp [alookup]
  | cons p rest ih =>
    obtain ⟨a, b⟩ := p
    by_cases h : a = k
    · subst h
      simp [alookup]
    · simp only [alookup, if_neg h, List.map_cons, List.mem_cons, ih]
      constructor
      · intro hn
        rintro (rfl | hmem)
        · exact h rfl
        · exact hn hmem
      · intro hn hmem
        exact hn (Or.inr hmem)

/-- Helper: `ainsert` on a key already at the head replaces in place. -/
theorem ainsert_head_eq {α β : Type} [DecidableEq α]
    (rest : List (α × β)) (a : α) (b v : β) :
    ainsert ((a, b) :: rest) a v = (a, v) :: rest := by
  simp [ainsert]

/-- Helper: `ainsert` on a different head key recurses past it. -/
theorem ainsert_head_ne {α β : Type} [DecidableEq α]
    (rest : List (α × β)) (a k : α) (b : β) (v : β) (h : a ≠ k) :
    ainsert ((a, b) :: rest) k v = (a, b) :: ainsert rest k v := by
  simp [ainsert, h]

/-- Helper: `aremove` on the head key drops it. -/
theorem aremove_head_eq {α β : Type} [DecidableEq α]
    (rest : List (α × β)) (a : α) (b : β) :
    aremove ((a, b) :: rest) a = rest := by
  simp [aremove]

/-- Helper: `aremove` on a different head key recurses past it. -/
theorem aremove_head_ne {α β : Type} [DecidableEq α]
    (rest : List (α × β)) (a k : α) (b : β) (h : a ≠ k) :
    aremove ((a, b) :: rest) k = (a, b) :: aremove rest k := by
  simp [aremove, h]

/-- Helper: the keys of `ainsert l k v` are `k` together with the keys of
`l`. -/
theorem mem_keys_ainsert {α β : Type} [DecidableEq α]
    (l : List (α × β)) (k : α) (v : β) (x : α) :
    x ∈ (ainsert l k v).map Prod.fst ↔ x = k ∨ x ∈ l.map Prod.fst := by
  induction l with
  | nil =>
    simp only [ainsert, List.map_cons, List.map_nil, List.mem_cons,
               List.not_mem_nil, or_false]
  | cons p rest ih =>
    obtain ⟨a, b⟩ := p
    by_cases h : a = k
    · subst h
      rw [ainsert_head_eq]
      simp only [List.map_cons, List.mem_cons]
      tauto
    · rw [ainsert_head_ne rest a k b v h]
      simp only [List.map_cons, List.mem_cons, ih]
      tauto

/-- Helper: `ainsert` keeps dictionary keys duplicate-free. -/
theorem nodup_keys_ainsert {α β : Type} [DecidableEq α]
    (l : List (α × β)) (k : α) (v : β)
    (h : (l.map Prod.fst).Nodup) : ((ainsert l k v).map Prod.fst).Nodup := by
  induction l with
  | nil => simp [ainsert]
  | cons p rest ih =>
    obtain ⟨a, b⟩ := p
    simp only [List.map_cons, List.nodup_cons] at h
    by_cases hk : a = k
    · subst hk
      rw [ainsert_head_eq]
      simp only [List.map_cons, List.nodup_cons]
      exact h
    · rw [ainsert_head_ne rest a k b v hk]
      simp only [List.map_cons, List.nodup_cons]
      refine ⟨fun hmem => ?_, ih h.2⟩
      rcases (mem_keys_ainsert rest k v a).mp hmem with rfl | hmem2
      · exact hk rfl
      · exact h.1 hmem2

/-- Helper: the keys of `aremove l k` are among the keys of `l`. -/
theorem mem_keys_aremove {α β : Type} [DecidableEq α]
    (l : List (α × β)) (k : α) (x : α)
    (h : x ∈ (aremove l k).map Prod.fst) : x ∈ l.map Prod.fst := by
  induction l with
  | nil => simp [aremove] at h
  | cons p rest ih =>
    obtain ⟨a, b⟩ := p
    by_cases hk : a = k
    · subst hk
      rw [aremove_head_eq] at h
      simp only [List.map_cons, List.mem_cons]
      exact Or.inr h
    · rw [aremove_head_ne rest a k b hk] at h
      simp only [List.map_cons, List.mem_cons] at h ⊢
      rcases h with rfl | h2
      · exact Or.inl rfl
      · exact Or.inr (ih h2)

/-- Helper: `aremove` keeps dictionary keys duplicate-free. -/
theorem nodup_keys_aremove {α β : Type} [DecidableEq α]
    (l : List (α × β)) (k : α)
    (h : (l.map Prod.fst).Nodup) : ((aremove l k).map Prod.fst).Nodup := by
  induction l with
  | nil => simp [aremove]
  | cons p rest ih =>
    obtain ⟨a, b⟩ := p
    simp only [List.map_cons, List.nodup_cons] at h
    by_cases hk : a = k
    · subst hk
      rw [aremove_head_eq]
      exact h.2
    · rw [aremove_head_ne rest a k b hk]
      simp only [List.map_cons, List.nodup_cons]
      exact ⟨fun hmem => h.1 (mem_keys_aremove rest k a hmem), ih h.2⟩

/-- Helper: deleting a key from a duplicate-free dictionary makes
`alookup` on that key miss. -/
theorem alookup_aremove_self {α β : Type} [DecidableEq α]
    (l : List (α × β)) (k : α)
    (h : (l.map Prod.fst).Nodup) : alookup (aremove l k) k = none := by
  induction l with
  | nil => simp [aremove, alookup]
  | cons p rest ih =>
    obtain ⟨a, b⟩ := p
    simp only [List.map_cons, List.nodup_cons] at h
    by_cases hk : a = k
    · subst hk
      rw [aremove_head_eq]
      exact (alookup_eq_none_iff rest a).mpr h.1
    · rw [aremove_head_ne rest a k b hk]
      simp only [alookup, if_neg hk]
      exact ih h.2

/-- Helper: a settlement callback for a key with no registered future
changes nothing. -/
theorem erase_future_of_none (c : Cache) (key : Key) (fut : FutId)
    (h : alookup c.lookup_cache key = none) : c.erase_future key fut = c := by
  simp [Cache.erase_future, h]

/-- Claim C7: the pending-future registry keeps at most one future per
key (its key list stays duplicate-free under both `create_query_future`
and `erase_future`); a settling future that is still the registered one
for its key removes itself, after which a repeated settlement callback is
a no-op (removal happens exactly once); and a stale settlement (the
registered future for the key differs) leaves the registry untouched. -/
theorem pending_future_registry_spec (c : Cache) (key : Key)
    (fut fut2 : FutId)
    (hnodup : (c.lookup_cache.map Prod.fst).Nodup) :
    ((c.create_query_future key fut).lookup_cache.map Prod.fst).Nodup
    ∧ ((c.erase_future key fut).lookup_cache.map Prod.fst).Nodup
    ∧ (alookup c.lookup_cache key = some fut →
         alookup (c.erase_future key fut).lookup_cache key = none
         ∧ (c.erase_future key fut).erase_future key fut
             = c.erase_future key fut)
    ∧ (alookup c.lookup_cache key = some fut2 → fut2 ≠ fut →
         c.erase_future key fut = c) := by
  refine ⟨nodup_keys_ainsert _ _ _ hnodup, ?_, ?_, ?_⟩
  · unfold Cache.erase_future
    match halo : alookup c.lookup_cache key with
    | none => exact hnodup
    | some existing =>
      by_cases he : existing = fut
      · simpa [he] using nodup_keys_aremove _ _ hnodup
      · simpa [he] using hnodup
  · intro hcur
    have hrm : (c.erase_future key fut).lookup_cache
        = aremove c.lookup_cache key := by
      simp [Cache.erase_future, hcur]
    have hnone : alookup (c.erase_future key fut).lookup_cache key = none := by
      rw [hrm]
      exact alookup_aremove_self _ _ hnodup
    refine ⟨hnone, ?_⟩
    exact erase_future_of_none _ key fut hnone
  · intro hcur hne
    simp [Cache.erase_future, hcur, hne]

/-- Witness for C7 at the concrete registry holding future 5 for key 0:
registering future 6 keeps the key list duplicate-free, the settlement of
future 5 removes its binding and a second settlement callback changes
nothing, and the stale settlement of future 9 leaves the registry with
future 5 intact. -/
theorem pending_future_registry_spec_wit :
    ((cachePending.create_query_future 0 6).lookup_cache.map Prod.fst).Nodup
    ∧ alookup (cachePending.erase_future 0 5).lookup_cache 0 = none
    ∧ (cachePending.erase_future 0 5).erase_future 0 5
        = cachePending.erase_future 0 5
    ∧ cachePending.erase_future 0 9 = cachePending := by
  have h5 := pending_future_registry_spec cachePending 0 5 5 (by decide)
  have h9 := pending_future_registry_spec cachePending 0 9 5 (by decide)
  exact ⟨(pending_future_registry_spec cachePending 0 6 5 (by decide)).1,
         (h5.2.2.1 (by decide)).1,
         (h5.2.2.1 (by decide)).2,
         h9.2.2.2 (by decide) (by decide)⟩

/-- Helper: a tier whose read succeeds contributes exactly its own open
event. -/
theorem tryStore_eq_of_hit (db : Option (List (Key × Entry))) (t : Tier)
    (key : Key) (e : Entry) (h : (tryStore db t key).1 = some e) :
    tryStore db t key = (some e, [t]) := by
  cases db with
  | none => simp [tryStore] at h
  | some files =>
    simp only [tryStore] at h ⊢
    rw [h]

/-- Claim C8: `lookup_in_database` consults memory overlay, then system
store, then user store.  A memory hit is returned with no file opened at
all, and `Cache.lookup` then returns it for every await trace, without
suspending.  A system-tier hit is returned having opened only the system
tier, whatever the user store holds.  A miss or unreadable file at the
system tier falls through to the user tier, whose hit is returned.  Only
when all three tiers miss does the operation report not-found. -/
theorem lookup_in_database_tier_order (c : Cache) (key : Key) (e : Entry) :
    (alookup c.memory_overlay key = some e →
       c.lookup_in_database key = (some e, [])
       ∧ ∀ env, c.lookup key env = PyResult.ok e)
    ∧ (alookup c.memory_overlay key = none →
       (tryStore c.system_db_path Tier.system key).1 = some e →
       c.lookup_in_database key = (some e, [Tier.system]))
    ∧ (alookup c.memory_overlay key = none →
       (tryStore c.system_db_path Tier.system key).1 = none →
       (tryStore c.user_db_path Tier.user key).1 = some e →
       (c.lookup_in_database key).1 = some e)
    ∧ (alookup c.memory_overlay key = none →
       (tryStore c.system_db_path Tier.system key).1 = none →
       (tryStore c.user_db_path Tier.user key).1 = none →
       (c.lookup_in_database key).1 = none) := by
  refine ⟨?_, ?_, ?_, ?_⟩
  · intro h
    refine ⟨by simp [Cache.lookup_in_database, h], fun env => ?_⟩
    simp [Cache.lookup, Cache.lookup_in_database, h]
  · intro hmem hsys
    have hp := tryStore_eq_of_hit _ _ _ _ hsys
    simp [Cache.lookup_in_database, hmem, hp]
  · intro hmem hsys huser
    rcases hs : tryStore c.system_db_path Tier.system key with ⟨s1, s2⟩
    rcases hu : tryStore c.user_db_path Tier.user key with ⟨u1, u2⟩
    rw [hs] at hsys
    rw [hu] at huser
    simp only at hsys huser
    subst hsys
    subst huser
    simp [Cache.lookup_in_database, hmem, hs, hu]
  · intro hmem hsys huser
    rcases hs : tryStore c.system_db_path Tier.system key with ⟨s1, s2⟩
    rcases hu : tryStore c.user_db_path Tier.user key with ⟨u1, u2⟩
    rw [hs] at hsys
    rw [hu] at huser
    simp only at hsys huser
    subst hsys
    subst huser
    simp [Cache.lookup_in_database, hmem, hs, hu]

/-- Witness for C8 on `cacheTiers`: key 1 hits memory with no file
opened and resolves through `Cache.lookup` for every trace, key 2 hits
the system tier only (even though the user store also has key 2), key 3
falls through the system tier to the user store, and key 4 misses all
three tiers. -/
theorem lookup_in_database_tier_order_wit :
    (cacheTiers.lookup_in_database 1 = (some 10, [])
      ∧ ∀ env, cacheTiers.lookup 1 env = PyResult.ok 10)
    ∧ cacheTiers.lookup_in_database 2 = (some 20, [Tier.system])
    ∧ (cacheTiers.lookup_in_database 3).1 = some 30
    ∧ (cacheTiers.lookup_in_database 4).1 = none :=
  ⟨(lookup_in_database_tier_order cacheTiers 1 10).1 (by decide),
   (lookup_in_database_tier_order cacheTiers 2 20).2.1 (by decide) (by decide),
   (lookup_in_database_tier_order cacheTiers 3 30).2.2.1 (by decide)
     (by decide) (by decide),
   (lookup_in_database_tier_order cacheTiers 4 0).2.2.2 (by decide)
     (by decide) (by decide)⟩

/-- Claim C2 counterexample: at the concrete recomputation where the old
key set for XEP-115 is the set with key 1 and the new computed set is the
set with keys 1 and 2 (key 1 present in both), `update_hash` does emit
the change notification exactly once but also unmounts key 1 and then
mounts it again, refuting the claimed continuous mounting of keys
present in both sets. -/
theorem update_hash_flicker_cex :
    CapsEvent.unmount 1
      ∈ (update_hash true false [1, 2] [] ⟨some [1], none⟩).2
    ∧ CapsEvent.mount 1
        ∈ (update_hash true false [1, 2] [] ⟨some [1], none⟩).2
    ∧ (1 ∈ [1]) ∧ (1 ∈ [1, 2].dedup)
    ∧ (update_hash true false [1, 2] []
        ⟨some [1], none⟩).2.count CapsEvent.verChanged = 1 := by
  decide

/-- Helper: per-key events never contain the change notification when the
per-key constructor is not `verChanged`. -/
theorem verChanged_not_mem_keyEvents (f : Nat → CapsEvent) (ks : KeyState)
    (hf : ∀ k, f k ≠ CapsEvent.verChanged) :
    CapsEvent.verChanged ∉ keyEvents f ks := by
  simp only [keyEvents, List.mem_flatten, List.mem_map]
  rintro ⟨l, ⟨g, hg, rfl⟩, hmem⟩
  rcases List.mem_map.mp hmem with ⟨k, hk, hfk⟩
  exact hf k hfk

/-- Helper: the per-key event of any key of any group is among the
per-key events of the key state. -/
theorem mem_keyEvents (f : Nat → CapsEvent) (ks : KeyState) (k : Nat)
    (g : List Nat) (hg : g ∈ ks.groups) (hk : k ∈ g) :
    f k ∈ keyEvents f ks := by
  simp only [keyEvents, List.mem_flatten]
  exact ⟨g.map f, List.mem_map_of_mem _ hg, List.mem_map_of_mem f hk⟩

/-- Helper: `update_hash` on a changed key set unmounts all current keys,
mounts all new keys and fires the notification. -/
theorem update_hash_of_ne (x115 x390 : Bool) (calc115 calc390 : List Nat)
    (cur : KeyState)
    (hne : cur.eqb { k115 := if x115 then some calc115.dedup else none,
                     k390 := if x390 then some calc390.dedup else none }
           = false) :
    update_hash x115 x390 calc115 calc390 cur
      = ({ k115 := if x115 then some calc115.dedup else none,
           k390 := if x390 then some calc390.dedup else none },
         keyEvents CapsEvent.unmount cur ++
         keyEvents CapsEvent.mount
           { k115 := if x115 then some calc115.dedup else none,
             k390 := if x390 then some calc390.dedup else none } ++
         [CapsEvent.verChanged]) := by
  simp [update_hash, hne]

/-- Claim C2 as amended: whenever the newly computed key dictionary
differs from the current one, `update_hash` fires the change
notification exactly once and replaces the key state, but it does not
leave keys present in both sets untouched: every key of every current
group is unmounted and every key of every new group is mounted, so a key
present before and after sees an unmount/mount pair. -/
theorem update_hash_changed_events (x115 x390 : Bool)
    (calc115 calc390 : List Nat) (cur : KeyState)
    (hne : cur.eqb { k115 := if x115 then some calc115.dedup else none,
                     k390 := if x390 then some calc390.dedup else none }
           = false) :
    (update_hash x115 x390 calc115 calc390 cur).2.count CapsEvent.verChanged
      = 1
    ∧ (∀ k g, g ∈ cur.groups → k ∈ g →
        CapsEvent.unmount k ∈ (update_hash x115 x390 calc115 calc390 cur).2)
    ∧ (∀ k g, g ∈ (update_hash x115 x390 calc115 calc390 cur).1.groups →
        k ∈ g →
        CapsEvent.mount k ∈ (update_hash x115 x390 calc115 calc390 cur).2)
    ∧ (update_hash x115 x390 calc115 calc390 cur).1
        = { k115 := if x115 then some calc115.dedup else none,
            k390 := if x390 then some calc390.dedup else none } := by
  rw [update_hash_of_ne x115 x390 calc115 calc390 cur hne]
  refine ⟨?_, ?_, ?_, rfl⟩
  · rw [List.count_append, List.count_append]
    rw [List.count_eq_zero.mpr
        (verChanged_not_mem_keyEvents CapsEvent.unmount cur
          (fun k => by simp))]
    rw [List.count_eq_zero.mpr
        (verChanged_not_mem_keyEvents CapsEvent.mount _ (fun k => by simp))]
    simp
  · intro k g hg hk
    exact List.mem_append_left _ (List.mem_append_left _
      (mem_keyEvents CapsEvent.unmount cur k g hg hk))
  · intro k g hg hk
    exact List.mem_append_left _ (List.mem_append_right _
      (mem_keyEvents CapsEvent.mount _ k g hg hk))

/-- Witness for C2 as amended at the concrete divergent recomputation. -/
theorem update_hash_changed_events_wit :
    (update_hash true false [1, 2] []
        ⟨some [1], none⟩).2.count CapsEvent.verChanged = 1
    ∧ (∀ k g, g ∈ KeyState.groups ⟨some [1], none⟩ → k ∈ g →
        CapsEvent.unmount k
          ∈ (update_hash true false [1, 2] [] ⟨some [1], none⟩).2)
    ∧ (∀ k g, g ∈ (update_hash true false [1, 2] [] ⟨some [1], none⟩).1.groups →
        k ∈ g →
        CapsEvent.mount k
          ∈ (update_hash true false [1, 2] [] ⟨some [1], none⟩).2)
    ∧ (update_hash true false [1, 2] [] ⟨some [1], none⟩).1
        = { k115 := if true then some [1, 2].dedup else none,
            k390 := if false then some List.nil.dedup else none } :=
  update_hash_changed_events true false [1, 2] [] ⟨some [1], none⟩ (by decide)
